import Mathlib

/-!
Verification of `airquality-download` (src/download.py, src/load.py).

The repository downloads European air-quality data into a local file cache
(`download.py`) and loads cached CSV files into a relational sink
(`load.py`).  This file gives a shallow embedding of the code paths
the specification's claims are about, and settles each claim as a theorem.

Modelling conventions:
* The local file system is an association list from path strings to file
  content.  `maybe_download` persists content with `data.to_csv(path)` and
  re-reads it with `pd.read_csv(path)`; a cached file is written once and
  never mutated, so its byte content is fixed and we represent it by the
  structured data it serializes.
* Remote fetch functions are `Unit → Except ε α` values: `.error` models a
  raised exception (`requests.HTTPError` or any other), `.ok` a returned
  data frame.
* Log / print output is modelled as explicit lists of structured messages.
-/

namespace AirQuality

/-- The local file cache: association list from path to file content
(`α` stands for the tabular data a cached CSV file holds).
Embeds the file system touched by `maybe_download` in `src/download.py`. -/
structure FS (α : Type) where
  files : List (String × α)
deriving DecidableEq, Repr

/-- `path.exists()` / `pd.read_csv(path)` on the modelled file system. -/
def FS.lookup {α : Type} (fs : FS α) (fname : String) : Option α :=
  fs.files.lookup fname

/-- `data.to_csv(path)`: persist content at a path (paths are written only
when absent, so cons suffices). -/
def FS.write {α : Type} (fs : FS α) (fname : String) (d : α) : FS α :=
  ⟨(fname, d) :: fs.files⟩

/-- Embeds `maybe_download(fname, download_func)` from `src/download.py`
lines 76-90.  If the path exists, read and return the cached content,
without invoking the fetch function.  Otherwise invoke the fetch function;
if it raises, the exception propagates before `os.makedirs` and
`data.to_csv` run, so the file system is unchanged; if it returns data,
persist it and return it.  The result carries the file system after the
call and the number of times the fetch function was invoked. -/
def maybe_download {α ε : Type} (fname : String) (download_func : Unit → Except ε α)
    (fs : FS α) : Except ε α × FS α × Nat :=
  match fs.lookup fname with
  | some d => (.ok d, fs, 0)
  | none =>
    match download_func () with
    | .error e => (.error e, fs, 1)
    | .ok d => (.ok d, fs.write fname d, 1)

/-! ### The raw-data download loop (`src/download.py`, `main`, lines 128-152)

`main` reads the cached file lists (`file_lists/*.csv.xz`) into one frame
with a `url` column and a `path` column (the originating file's path), and
iterates its rows.  For each row it recovers `(pollutant, country_code)`
by splitting the file-list path's stem on `'_'`, derives the raw-data
cache path, and calls `maybe_download`.  `requests.HTTPError` is caught
and printed with the target path and the url; any other exception is
caught and printed with the url only. -/

/-- One row of the concatenated file-list frame: a measurement-file `url`
and the `path` of the cached file-list it came from. -/
structure FileListRow where
  url : String
  path : String
deriving DecidableEq, Repr

/-- Exceptions a fetch can raise: `requests.HTTPError` from
`raise_for_status`, or any other exception. -/
inductive DlErr where
  | httpError (msg : String)
  | otherErr (msg : String)
deriving DecidableEq, Repr

/-- A line printed by the per-entry exception handlers in `main`:
`downloadError` embeds `print(f'error downloading {path} from {url}: {e}')`
(the `requests.HTTPError` handler), `processError` embeds
`print(f'error processing {url}: {e}')` (the generic handler). -/
inductive DlLog where
  | downloadError (path url msg : String)
  | processError (url msg : String)
deriving DecidableEq, Repr

/-- `str.split(sep)` on a one-character separator, on the character list:
splitting the empty string yields `[[]]`, as in Python. -/
def splitOnChar (sep : Char) : List Char → List (List Char)
  | [] => [[]]
  | c :: cs =>
    let r := splitOnChar sep cs
    if c = sep then [] :: r else (c :: r.headD []) :: r.tail

/-- `str.split(sep)` for a one-character separator, as string lists. -/
def splitOnCharS (sep : Char) (s : String) : List String :=
  (splitOnChar sep s.data).map fun cs => String.mk cs

/-- `Path(p).name`: the last `/`-separated component of a path string. -/
def pathName (p : String) : String :=
  (splitOnCharS '/' p).getLastD ""

/-- `Path(row['path']).name.split('.')[0].split('_')`: the file-list
file name up to its first dot, split on underscores. -/
def splitStem (p : String) : List String :=
  splitOnCharS '_' ((splitOnCharS '.' (pathName p)).headD "")

/-- The raw-data cache path
`data_root / f'raw/{pollutant}/{country_code}' / (Path(url).name + '.xz')`
derived for an entry (meaningful when `splitStem` has exactly two parts). -/
def entryPath (dataRoot : String) (r : FileListRow) : String :=
  let parts := splitStem r.path
  dataRoot ++ "/raw/" ++ parts.headD "" ++ "/" ++ (parts.getD 1 "") ++ "/"
    ++ pathName r.url ++ ".xz"

/-- The text of the `ValueError` raised when tuple unpacking of the stem
parts fails (not exactly two values). -/
def unpackErrMsg : String := "values to unpack"

/-- Embeds the body of the measurement-data loop in `main`
(`src/download.py` lines 135-152): one catalog entry.  `fetch` models
`download_data_file` applied to a url (the remote call).  Returns the file
system after the entry and the lines printed by the exception handlers.
The tuple unpacking `pollutant, country_code = ...split('_')` raises
`ValueError` unless the split has exactly two parts; that error reaches
the generic `except Exception` handler before any download is attempted. -/
def processEntry {α : Type} (dataRoot : String) (fetch : String → Except DlErr α)
    (fs : FS α) (r : FileListRow) : FS α × List DlLog :=
  if (splitStem r.path).length = 2 then
    let path := entryPath dataRoot r
    match maybe_download path (fun _ => fetch r.url) fs with
    | (.ok _, fs', _) => (fs', [])
    | (.error (.httpError m), fs', _) => (fs', [.downloadError path r.url m])
    | (.error (.otherErr m), fs', _) => (fs', [.processError r.url m])
  else
    (fs, [.processError r.url unpackErrMsg])

/-- Embeds the measurement-data `for` loop of `main` over all file-list
rows: both `except` clauses swallow the entry's exception, so the loop
always reaches the end of the row list. -/
def downloadLoop {α : Type} (dataRoot : String) (fetch : String → Except DlErr α) :
    List FileListRow → FS α → FS α × List DlLog
  | [], fs => (fs, [])
  | r :: rs, fs =>
    let step := processEntry dataRoot fetch fs r
    let rest := downloadLoop dataRoot fetch rs step.1
    (rest.1, step.2 ++ rest.2)

/-! ### Column-name normalization (`src/load.py`, lines 21-26)

`normalize_name(n) = snakecase(n.replace(' ', '_'))`, with `snakecase`
from the `stringcase` package: replace `-`, `.` and whitespace by `_`,
lower-case the first character, and turn every later upper-case character
into `_` followed by its lower case. -/

/-- The character substitution step of `stringcase.snakecase`
(its cleanup regex sends `-`, `.` and whitespace to `_`). -/
def snakeChar (c : Char) : Char :=
  if c = '-' ∨ c = '.' ∨ c.isWhitespace then '_' else c

/-- The tail transformation of `stringcase.snakecase`: each upper-case
character becomes an underscore followed by its lower case. -/
def snakeTail (cs : List Char) : List Char :=
  cs.flatMap fun c => if c.isUpper then ['_', c.toLower] else [c]

/-- `stringcase.snakecase`. -/
def snakecase (s : String) : String :=
  match s.data.map snakeChar with
  | [] => ""
  | c :: cs => ⟨c.toLower :: snakeTail cs⟩

/-- `n.replace(' ', '_')`: substitute every space character. -/
def replaceSpaces (n : String) : String :=
  String.mk (n.data.map fun c => if c = ' ' then '_' else c)

/-- `normalize_name` from `src/load.py`. -/
def normalize_name (n : String) : String :=
  snakecase (replaceSpaces n)

/-- A cell value in a data frame / relational row: a string field or an
integer field (used for generated surrogate keys). -/
inductive Val where
  | s (v : String)
  | n (v : Nat)
deriving DecidableEq, Repr

/-- A data-frame / relational row: association list from column name to
value, in column order. -/
abbrev Row := List (String × Val)

/-- `normalize_column_names` from `src/load.py`: rename every column by
`normalize_name`. -/
def normalize_column_names (rows : List Row) : List Row :=
  rows.map (List.map fun p => (normalize_name p.1, p.2))

/-! ### Dimension loading (`src/load.py`, `load_metadata` / `load_quantities`) -/

/-- A sink table: its rows and its primary-key column, if one has been
declared. -/
structure Table where
  rows : List Row
  pk : Option String
deriving DecidableEq, Repr

/-- The relational sink: association list from table name to table. -/
structure Db where
  tables : List (String × Table)
deriving DecidableEq, Repr

/-- Look a table up by name. -/
def Db.getTable (db : Db) (tname : String) : Option Table :=
  db.tables.lookup tname

/-- Install a table under a name, dropping any previous table of that
name. -/
def Db.setTable (db : Db) (tname : String) (t : Table) : Db :=
  ⟨(tname, t) :: db.tables.filter (fun p => p.1 ≠ tname)⟩

/-- `pandas` writes the frame's default integer index (0, 1, 2, ...) as a
leading column named `indexLabel`. -/
def indexedRows (indexLabel : String) (rows : List Row) : List Row :=
  rows.enum.map fun p => (indexLabel, Val.n p.1) :: p.2

/-- Embeds `d.to_sql(tname, db, if_exists='replace', index_label=...)`:
drop any existing table of that name and create it afresh from the frame,
index included; the bulk insert declares no primary key. -/
def to_sql_replace (tname indexLabel : String) (rows : List Row) (db : Db) : Db :=
  db.setTable tname ⟨indexedRows indexLabel rows, none⟩

/-- Embeds `ALTER TABLE <tname> ADD PRIMARY KEY (<col>);`. -/
def alterAddPrimaryKey (tname col : String) (db : Db) : Db :=
  match db.getTable tname with
  | some t => db.setTable tname { t with pk := some col }
  | none => db

/-- Embeds `load_metadata` from `src/load.py` lines 29-38: read the
stations CSV (`csv` is the parsed file content), normalize column names,
bulk-write as a full replacement of table `station` with the index as
column `station_id`, then add the primary key. -/
def load_metadata (csv : List Row) (db : Db) : Db :=
  let d := normalize_column_names csv
  alterAddPrimaryKey "station" "station_id"
    (to_sql_replace "station" "station_id" d db)

/-- Embeds `load_quantities` from `src/load.py` lines 41-53: same shape as
`load_metadata`, targeting table `quantity` with key `quantity_id`. -/
def load_quantities (csv : List Row) (db : Db) : Db :=
  let d := normalize_column_names csv
  alterAddPrimaryKey "quantity" "quantity_id"
    (to_sql_replace "quantity" "quantity_id" d db)

/-! ### Fact loading (`src/load.py`, `load_observations`, lines 56-152)

`load_observations` first queries the dimension tables
(`select station_id, air_quality_station from station` and
`select quantity_id, air_pollutant_code, recommended_unit from quantity`)
and the sink's `observation` column order; these query results are the
`stations`, `quantities` and `obsCols` parameters below.  It then iterates
`zip(range(5), sorted(fnames))` and, per file: reads the CSV (UTF-8, then
UTF-16 on `UnicodeDecodeError`, raising if both fail), normalizes column
names, inner-joins both dimensions, selects the sink's columns in order,
and bulk-appends via `pd_to_psql`.  A `psycopg2.errors.UniqueViolation`
is caught (warning, file skipped); any other exception is logged and
re-raised. -/

/-- One parsed observations row, after `normalize_column_names`: the
`usecols` selection is `write_cols + extra_cols` of `load_observations`,
with names normalized. -/
structure ObsRow where
  concentration : String
  datetime_begin : String
  datetime_end : String
  validity : String
  verification : String
  air_quality_station : String
  air_pollutant_code : String
  unit_of_measurement : String
deriving DecidableEq, Repr

/-- One row of the `station` dimension query result. -/
structure StationRow where
  station_id : Nat
  air_quality_station : String
deriving DecidableEq, Repr

/-- One row of the `quantity` dimension query result. -/
structure QuantityRow where
  quantity_id : Nat
  air_pollutant_code : String
  recommended_unit : String
deriving DecidableEq, Repr

/-- A cached observations file, by its decode outcomes: `utf8` (resp.
`utf16`) is `none` when `pd.read_csv(fname, ..., encoding=...)` raises
`UnicodeDecodeError` under that encoding, and `some rows` when it parses. -/
structure ObsFile where
  utf8 : Option (List ObsRow)
  utf16 : Option (List ObsRow)
deriving DecidableEq, Repr

/-- Errors raised while processing one observations file:
`psycopg2.errors.UniqueViolation` from the bulk append, or any other
exception (message attached). -/
inductive LoadErr where
  | uniqueViolation
  | otherErr (msg : String)
deriving DecidableEq, Repr

/-- Embeds the encoding-fallback read loop of `load_observations`
(lines 100-119): `for encoding in ('utf-8', 'utf-16')` try the read,
on `UnicodeDecodeError` log and try the next encoding, break on success;
the `for`-`else` raises `Exception(f'Error reading {fname}: ...')` when
neither encoding worked. -/
def readObservations (f : ObsFile) (fname : String) : Except LoadErr (List ObsRow) :=
  match f.utf8 with
  | some d => .ok d
  | none =>
    match f.utf16 with
    | some d => .ok d
    | none => .error (.otherErr ("Error reading " ++ fname))

/-- Embeds `d.merge(station, on='air_quality_station')`: inner join,
keeping each observation row once per station row with the same
`air_quality_station` code. -/
def mergeStation (obs : List ObsRow) (stations : List StationRow) :
    List (ObsRow × StationRow) :=
  obs.flatMap fun o =>
    (stations.filter fun s => s.air_quality_station = o.air_quality_station).map
      fun s => (o, s)

/-- A fully merged row: observation columns plus the matched station and
quantity dimension rows. -/
abbrev MergedRow := ObsRow × StationRow × QuantityRow

/-- Embeds `.merge(quantity, on='air_pollutant_code')` applied to the
station-merged frame. -/
def mergeQuantity (l : List (ObsRow × StationRow)) (quantities : List QuantityRow) :
    List MergedRow :=
  l.flatMap fun os =>
    (quantities.filter fun q => q.air_pollutant_code = os.1.air_pollutant_code).map
      fun q => (os.1, os.2, q)

/-- The two chained inner joins of `load_observations` (lines 122-126). -/
def mergeRows (obs : List ObsRow) (stations : List StationRow)
    (quantities : List QuantityRow) : List MergedRow :=
  mergeQuantity (mergeStation obs stations) quantities

/-- Column lookup on a merged row: the merged frame holds the normalized
observation columns, `station_id` from the station merge, and
`quantity_id` / `recommended_unit` from the quantity merge.  Any other
name is absent (`d[...]` selection on it would raise `KeyError`). -/
def mergedColValue (m : MergedRow) : String → Option Val
  | "concentration" => some (.s m.1.concentration)
  | "datetime_begin" => some (.s m.1.datetime_begin)
  | "datetime_end" => some (.s m.1.datetime_end)
  | "validity" => some (.s m.1.validity)
  | "verification" => some (.s m.1.verification)
  | "air_quality_station" => some (.s m.1.air_quality_station)
  | "air_pollutant_code" => some (.s m.1.air_pollutant_code)
  | "unit_of_measurement" => some (.s m.1.unit_of_measurement)
  | "station_id" => some (.n m.2.1.station_id)
  | "quantity_id" => some (.n m.2.2.quantity_id)
  | "recommended_unit" => some (.s m.2.2.recommended_unit)
  | _ => none

/-- The column names present in the merged frame. -/
def mergedCols : List String :=
  ["concentration", "datetime_begin", "datetime_end", "validity",
   "verification", "air_quality_station", "air_pollutant_code",
   "unit_of_measurement", "station_id", "quantity_id", "recommended_unit"]

/-- A row as emitted to the sink: the values listed in the sink's column
order (the bulk-append path is order-sensitive, not name-sensitive). -/
abbrev FactRow := List Val

/-- Embeds the column selection `d[observation_columns]` on one merged
row: the named columns, in the sink's order. -/
def selectRow (obsCols : List String) (m : MergedRow) : Option FactRow :=
  obsCols.mapM (mergedColValue m)

/-- The whole frame transformation of lines 122-127: join both dimensions
and select the sink's columns in order; a missing column raises
`KeyError`, modelled as the error case. -/
def processRows (obsCols : List String) (obs : List ObsRow)
    (stations : List StationRow) (quantities : List QuantityRow) :
    Except LoadErr (List FactRow) :=
  match (mergeRows obs stations quantities).mapM (selectRow obsCols) with
  | some out => .ok out
  | none => .error (.otherErr "KeyError")

/-- The natural-key columns the sink's unique constraint covers. -/
def natKeyCols : List String :=
  ["station_id", "quantity_id", "datetime_begin", "datetime_end"]

/-- The natural key of an emitted row, extracted by the sink's column
names (the emitted row's values are in `obsCols` order). -/
def natKey (obsCols : List String) (r : FactRow) : List (Option Val) :=
  natKeyCols.map fun c => (obsCols.zip r).lookup c

/-- Modelled from the spec: the `observation` table's DDL lives in
`create_table_observation.sql`, which is outside `src/`; per the spec the
sink enforces "uniqueness ... on a natural key (station, quantity, time
window)", and `pd_to_psql` appends the whole batch, raising
`psycopg2.errors.UniqueViolation` (and inserting nothing) when an
appended row's natural key is already present. -/
def pd_to_psql (obsCols : List String) (rows table : List FactRow) :
    Except LoadErr (List FactRow) :=
  if rows.any (fun r => table.any fun t => natKey obsCols t = natKey obsCols r) then
    .error .uniqueViolation
  else
    .ok (table ++ rows)

/-- The `try` body for one observations file (lines 101-141): read with
encoding fallback, join, select the sink's columns, bulk-append to the
fact table.  Returns the fact table after the file. -/
def processFile (readFile : String → ObsFile) (stations : List StationRow)
    (quantities : List QuantityRow) (obsCols : List String) (fname : String)
    (table : List FactRow) : Except LoadErr (List FactRow) := do
  let rows ← readObservations (readFile fname) fname
  let out ← processRows obsCols rows stations quantities
  pd_to_psql obsCols out table

/-- The warning text of the `UniqueViolation` handler (lines 142-146). -/
def dupWarning (fname : String) : String :=
  "one or more rows in file " ++ fname ++
    " are already in the database; skipping the entire file."

/-- The fact table and the warnings logged so far. -/
structure LoadState where
  table : List FactRow
  warnings : List String
deriving DecidableEq, Repr

/-- Embeds the `for` loop of `load_observations` with its two `except`
clauses (lines 100-152): a `UniqueViolation` logs a warning and the loop
continues with the next file (the fact table unchanged); any other
exception is re-raised, aborting the run. -/
def loadLoop (readFile : String → ObsFile) (stations : List StationRow)
    (quantities : List QuantityRow) (obsCols : List String) :
    List String → LoadState → Except LoadErr LoadState
  | [], st => .ok st
  | fname :: rest, st =>
    match processFile readFile stations quantities obsCols fname st.table with
    | .ok table' => loadLoop readFile stations quantities obsCols rest ⟨table', st.warnings⟩
    | .error .uniqueViolation =>
      loadLoop readFile stations quantities obsCols rest
        ⟨st.table, st.warnings ++ [dupWarning fname]⟩
    | .error (.otherErr m) => .error (.otherErr m)

/-- Python's string comparison: lexicographic by character code point. -/
def lexLe : List Char → List Char → Bool
  | [], _ => true
  | _ :: _, [] => false
  | a :: as, b :: bs =>
    if a.toNat < b.toNat then true
    else if b.toNat < a.toNat then false
    else lexLe as bs

/-- `a <= b` on Python strings. -/
def strLe (a b : String) : Bool :=
  lexLe a.data b.data

/-- `sorted(fnames)`: Python's sort is a stable sort under lexicographic
string order; `List.insertionSort` is a stable sort computing the same
sorted sequence. -/
def sortNames (fnames : List String) : List String :=
  fnames.insertionSort fun a b => strLe a b = true

/-- `[x for _, x in zip(range(5), l)]`: the iteration domain
`zip(range(5), ...)` of line 100 pairs each element with a counter and
stops when either side runs out. -/
def firstFive {α : Type} (l : List α) : List α :=
  ((List.range 5).zip l).map Prod.snd

/-- The sequence of file names the loop of `load_observations` actually
iterates (line 97-100): `zip(range(5), sorted(fnames))`, second
components. -/
def processedNames (fnames : List String) : List String :=
  firstFive (sortNames fnames)

/-- Embeds `load_observations` (lines 56-152): dimension query results
and the sink's column order are parameters (they are read from the sink
at entry), `readFile` models the file system holding the observation
CSVs. -/
def load_observations (readFile : String → ObsFile) (stations : List StationRow)
    (quantities : List QuantityRow) (obsCols : List String)
    (fnames : List String) (st : LoadState) : Except LoadErr LoadState :=
  loadLoop readFile stations quantities obsCols (processedNames fnames) st

/-! ## Helper lemmas -/

/-- Zipping against any list and projecting the second components is a
truncation to the first list's length. -/
theorem map_snd_zip_take {α β : Type} :
    ∀ (l₁ : List α) (l₂ : List β), (l₁.zip l₂).map Prod.snd = l₂.take l₁.length := by
  intro l₁
  induction l₁ with
  | nil => intro l₂; simp
  | cons x xs ih =>
    intro l₂
    cases l₂ with
    | nil => simp
    | cons b t => simp [List.zip_cons_cons, ih]

/-- `zip(range(5), l)` keeps exactly the first five elements. -/
theorem firstFive_eq_take {α : Type} (l : List α) : firstFive l = l.take 5 := by
  rw [firstFive, map_snd_zip_take, List.length_range]

/-- Lexicographic comparison is total. -/
theorem lexLe_total : ∀ (as bs : List Char), lexLe as bs = true ∨ lexLe bs as = true := by
  intro as
  induction as with
  | nil => intro bs; left; rfl
  | cons a as ih =>
    intro bs
    cases bs with
    | nil => right; rfl
    | cons b bs =>
      rcases Nat.lt_trichotomy a.toNat b.toNat with h | h | h
      · left; simp [lexLe, h]
      · rcases ih bs with h2 | h2
        · left; simp [lexLe, h, h2]
        · right; simp [lexLe, h, h2]
      · right; simp [lexLe, h]

/-- Lexicographic comparison is transitive. -/
theorem lexLe_trans : ∀ (as bs cs : List Char),
    lexLe as bs = true → lexLe bs cs = true → lexLe as cs = true := by
  intro as
  induction as with
  | nil => intro bs cs _ _; rfl
  | cons a as ih =>
    intro bs cs h1 h2
    cases bs with
    | nil => simp [lexLe] at h1
    | cons b bs =>
      cases cs with
      | nil => simp [lexLe] at h2
      | cons c cs =>
        by_cases hab : a.toNat < b.toNat
        · by_cases hbc : b.toNat < c.toNat
          · have hac : a.toNat < c.toNat := Nat.lt_trans hab hbc
            simp [lexLe, hac]
          · by_cases hcb : c.toNat < b.toNat
            · simp [lexLe, hbc, hcb] at h2
            · have hac : a.toNat < c.toNat := by omega
              simp [lexLe, hac]
        · by_cases hba : b.toNat < a.toNat
          · simp [lexLe, hab, hba] at h1
          · simp only [lexLe, if_neg hab, if_neg hba] at h1
            by_cases hbc : b.toNat < c.toNat
            · have hac : a.toNat < c.toNat := by omega
              simp [lexLe, hac]
            · by_cases hcb : c.toNat < b.toNat
              · simp [lexLe, hbc, hcb] at h2
              · simp only [lexLe, if_neg hbc, if_neg hcb] at h2
                have hac : ¬ a.toNat < c.toNat := by omega
                have hca : ¬ c.toNat < a.toNat := by omega
                simp only [lexLe, if_neg hac, if_neg hca]
                exact ih bs cs h1 h2

instance : IsTotal String fun a b => strLe a b = true :=
  ⟨fun a b => lexLe_total a.data b.data⟩

instance : IsTrans String fun a b => strLe a b = true :=
  ⟨fun a b c => lexLe_trans a.data b.data c.data⟩

/-! ## Claims -/

/-- Claim C1 (code bug evidence): the fact loader does not iterate the
whole sorted file set even though the caller (the `observations`
subcommand) never requests a partial run: the loop domain
`zip(range(5), fnames)` hard-caps every invocation at the five
lexicographically first files, so with six input files the sixth is
never processed. -/
theorem load_observations_file_cap :
    processedNames ["f0", "f1", "f2", "f3", "f4", "f5"] = ["f0", "f1", "f2", "f3", "f4"] ∧
    "f5" ∉ processedNames ["f0", "f1", "f2", "f3", "f4", "f5"] := by
  decide

/-- Claim C2: the cached-fetch primitive is idempotent.  If a call
completes, returning content `d₁` and leaving file system `fs₁`, then a
second call with the same destination path returns exactly `d₁`, leaves
the file system unchanged, and invokes the fetch function zero times;
the first call invoked it at most once. -/
theorem maybe_download_idempotent {α ε : Type} (fname : String)
    (download_func : Unit → Except ε α) (fs fs₁ : FS α) (d₁ : α) (k₁ : Nat)
    (h : maybe_download fname download_func fs = (.ok d₁, fs₁, k₁)) :
    maybe_download fname download_func fs₁ = (.ok d₁, fs₁, 0) ∧ k₁ ≤ 1 := by
  unfold maybe_download at h ⊢
  cases hl : fs.lookup fname with
  | some d =>
    rw [hl] at h
    simp only [Prod.mk.injEq, Except.ok.injEq] at h
    obtain ⟨h1, h2, h3⟩ := h
    subst h1; subst h2; subst h3
    rw [hl]
    exact ⟨rfl, by omega⟩
  | none =>
    rw [hl] at h
    cases hd : download_func () with
    | error e => rw [hd] at h; simp at h
    | ok d =>
      rw [hd] at h
      simp only [Prod.mk.injEq, Except.ok.injEq] at h
      obtain ⟨h1, h2, h3⟩ := h
      subst h1; subst h2; subst h3
      simp [FS.lookup, FS.write, List.lookup]

/-- Witness for C2 at a concrete input: a first call on an empty cache
fetches and persists the content; the theorem then yields that the second
call returns it from cache without fetching. -/
theorem maybe_download_idempotent_witness :
    maybe_download "data/metadata.csv.xz" (fun _ => (.ok 7 : Except String Nat))
        ⟨[("data/metadata.csv.xz", 7)]⟩ =
      (.ok 7, ⟨[("data/metadata.csv.xz", 7)]⟩, 0) ∧ 1 ≤ 1 :=
  maybe_download_idempotent "data/metadata.csv.xz" (fun _ => .ok 7)
    ⟨[]⟩ ⟨[("data/metadata.csv.xz", 7)]⟩ 7 1 rfl

/-- Claim C7: if the destination path is absent and the fetch function
raises, the exception propagates out of the cached-fetch primitive and
the file system is unchanged — no file is created at the destination
path, so the resource is retried on the next run. -/
theorem maybe_download_failure_no_cache {α ε : Type} (fname : String)
    (download_func : Unit → Except ε α) (fs : FS α) (e : ε)
    (h1 : fs.lookup fname = none) (h2 : download_func () = .error e) :
    maybe_download fname download_func fs = (.error e, fs, 1) := by
  unfold maybe_download
  rw [h1, h2]

/-- Witness for C7 at a concrete input: a failing fetch on an empty cache
propagates the error and leaves the cache empty. -/
theorem maybe_download_failure_no_cache_witness :
    maybe_download "data/raw/NO2/AT/f.csv.xz"
        (fun _ => (.error "HTTPError 503" : Except String Nat)) ⟨[]⟩ =
      (.error "HTTPError 503", ⟨[]⟩, 1) :=
  maybe_download_failure_no_cache "data/raw/NO2/AT/f.csv.xz"
    (fun _ => .error "HTTPError 503") ⟨[]⟩ "HTTPError 503" rfl rfl

/-- Claim C8 (counterexample): with six input files, the sequence of
files the loader processes is not the sorted sequence of the given
names — the hard five-file cap truncates it. -/
theorem processedNames_not_whole_sorted_list :
    processedNames ["b", "a", "c", "e", "d", "f"] ≠
      sortNames ["b", "a", "c", "e", "d", "f"] := by
  decide

/-- Claim C8 (amended): the loader iterates the five lexicographically
first of the input file names (all of them when at most five are given):
the processed sequence is the five-element prefix of the sorted
permutation of the input names, hence lexicographically sorted, and —
being a pure function of the name multiset — identical across runs. -/
theorem load_processes_sorted_prefix (fnames : List String) :
    processedNames fnames = (sortNames fnames).take 5 ∧
    List.Sorted (fun a b => strLe a b = true) (processedNames fnames) ∧
    (sortNames fnames).Perm fnames := by
  refine ⟨firstFive_eq_take _, ?_, List.perm_insertionSort _ _⟩
  rw [processedNames, firstFive_eq_take]
  exact List.Pairwise.sublist (List.take_sublist 5 _)
    (List.sorted_insertionSort (fun a b => strLe a b = true) fnames)

/-! ### Fixtures for concrete witnesses -/

/-- The sink's `observation` column order used in concrete runs. -/
def exObsCols : List String :=
  ["station_id", "quantity_id", "datetime_begin", "datetime_end",
   "concentration", "validity", "verification"]

/-- A one-row station dimension. -/
def exStations : List StationRow := [⟨1, "ST1"⟩]

/-- A one-row quantity dimension. -/
def exQuantities : List QuantityRow := [⟨2, "P1", "u"⟩]

/-- An observations row whose codes resolve in both dimensions. -/
def exObsRow : ObsRow := ⟨"3.5", "t0", "t1", "1", "1", "ST1", "P1", "u"⟩

/-- The fact row `exObsRow` loads to, in `exObsCols` order. -/
def exFactRow : FactRow :=
  [.n 1, .n 2, .s "t0", .s "t1", .s "3.5", .s "1", .s "1"]

/-- A file system where `obs1.csv` decodes as UTF-8 to `[exObsRow]` and
every other file decodes under neither encoding. -/
def exReadFile : String → ObsFile :=
  fun n => if n = "obs1.csv" then ⟨some [exObsRow], none⟩ else ⟨none, none⟩

/-! ### Claims C3 and C4 -/

/-- Claim C3: in the fact-loading loop, a uniqueness violation raised
while processing one file is caught — the file is skipped whole (the fact
table is unchanged), the duplicate warning is logged, and the loop
continues with the remaining files; any other error re-raises and aborts
the run. -/
theorem load_unique_violation_skips (readFile : String → ObsFile)
    (stations : List StationRow) (quantities : List QuantityRow)
    (obsCols : List String) (fname : String) (rest : List String)
    (table : List FactRow) (ws : List String) (m : String) :
    (processFile readFile stations quantities obsCols fname table =
        .error .uniqueViolation →
      loadLoop readFile stations quantities obsCols (fname :: rest) ⟨table, ws⟩ =
        loadLoop readFile stations quantities obsCols rest
          ⟨table, ws ++ [dupWarning fname]⟩) ∧
    (processFile readFile stations quantities obsCols fname table =
        .error (.otherErr m) →
      loadLoop readFile stations quantities obsCols (fname :: rest) ⟨table, ws⟩ =
        .error (.otherErr m)) := by
  constructor <;> intro h <;> simp [loadLoop, h]

/-- Witness for C3 at concrete inputs: re-loading a file whose row is
already in the fact table skips it with the warning and the run does not
abort; an undecodable file aborts the run. -/
theorem load_unique_violation_skips_witness :
    (loadLoop exReadFile exStations exQuantities exObsCols ["obs1.csv"]
        ⟨[exFactRow], []⟩ =
      loadLoop exReadFile exStations exQuantities exObsCols []
        ⟨[exFactRow], [dupWarning "obs1.csv"]⟩) ∧
    (loadLoop exReadFile exStations exQuantities exObsCols ["bad.csv"]
        ⟨[exFactRow], []⟩ =
      .error (.otherErr "Error reading bad.csv")) :=
  ⟨(load_unique_violation_skips exReadFile exStations exQuantities exObsCols
      "obs1.csv" [] [exFactRow] [] "x").1 rfl,
   (load_unique_violation_skips exReadFile exStations exQuantities exObsCols
      "bad.csv" [] [exFactRow] [] "Error reading bad.csv").2 rfl⟩

/-- Helper: once an undecodable file is among the names the loop
iterates, the whole run ends in an error — every earlier file either
continues the loop or aborts it, and reaching the undecodable file
aborts. -/
theorem loadLoop_aborts_of_undecodable (readFile : String → ObsFile)
    (stations : List StationRow) (quantities : List QuantityRow)
    (obsCols : List String) (fname : String)
    (hf : readFile fname = ⟨none, none⟩) :
    ∀ (names : List String) (st : LoadState), fname ∈ names →
      ∃ m, loadLoop readFile stations quantities obsCols names st =
        .error (.otherErr m) := by
  intro names
  induction names with
  | nil => intro st h; simp at h
  | cons n rest ih =>
    intro st hmem
    by_cases hn : n = fname
    · subst hn
      have hp : processFile readFile stations quantities obsCols n st.table =
          .error (.otherErr ("Error reading " ++ n)) := by
        unfold processFile
        rw [hf]
        rfl
      exact ⟨"Error reading " ++ n, by simp [loadLoop, hp]⟩
    · have hmem' : fname ∈ rest := by
        rcases List.mem_cons.mp hmem with h | h
        · exact absurd h.symm hn
        · exact h
      cases hstep : processFile readFile stations quantities obsCols n st.table with
      | ok table' =>
        obtain ⟨m, hm⟩ := ih ⟨table', st.warnings⟩ hmem'
        exact ⟨m, by simp [loadLoop, hstep, hm]⟩
      | error e =>
        cases e with
        | uniqueViolation =>
          obtain ⟨m, hm⟩ := ih ⟨st.table, st.warnings ++ [dupWarning n]⟩ hmem'
          exact ⟨m, by simp [loadLoop, hstep, hm]⟩
        | otherErr m => exact ⟨m, by simp [loadLoop, hstep]⟩

/-- Claim C4: reading an observations file attempts UTF-8 first and falls
back to UTF-16 on a decode failure — a file that decodes only as UTF-16
is read successfully; a file that decodes under neither encoding makes
the entire load run abort with an error, not merely that one file. -/
theorem load_encoding_fallback (f : ObsFile) (fname : String)
    (rows : List ObsRow) (readFile : String → ObsFile)
    (stations : List StationRow) (quantities : List QuantityRow)
    (obsCols : List String) (fnames : List String) (st : LoadState) :
    (f.utf8 = none → f.utf16 = some rows → readObservations f fname = .ok rows) ∧
    (readFile fname = ⟨none, none⟩ → fname ∈ processedNames fnames →
      ∃ m, load_observations readFile stations quantities obsCols fnames st =
        .error (.otherErr m)) := by
  constructor
  · intro h8 h16
    simp [readObservations, h8, h16]
  · intro hf hmem
    exact loadLoop_aborts_of_undecodable readFile stations quantities obsCols
      fname hf _ st hmem

/-- Witness for C4 at concrete inputs: a UTF-16-only file is read to its
rows after the UTF-8 attempt fails, and a run over a file decodable under
neither encoding ends in an error. -/
theorem load_encoding_fallback_witness :
    (readObservations ⟨none, some [exObsRow]⟩ "bad.csv" = .ok [exObsRow]) ∧
    (∃ m, load_observations (fun _ => ⟨none, none⟩) exStations exQuantities
        exObsCols ["bad.csv"] ⟨[], []⟩ = .error (.otherErr m)) :=
  ⟨(load_encoding_fallback ⟨none, some [exObsRow]⟩ "bad.csv" [exObsRow]
      (fun _ => ⟨none, none⟩) exStations exQuantities exObsCols ["bad.csv"]
      ⟨[], []⟩).1 rfl rfl,
   (load_encoding_fallback ⟨none, some [exObsRow]⟩ "bad.csv" [exObsRow]
      (fun _ => ⟨none, none⟩) exStations exQuantities exObsCols ["bad.csv"]
      ⟨[], []⟩).2 rfl (by decide)⟩

/-! ### Claims C5 and C6 -/

/-- Helper: membership in the double inner join — a fully merged row
exists exactly for an observation row together with dimension rows
matching its station code and its pollutant code. -/
theorem mem_mergeRows (obs : List ObsRow) (stations : List StationRow)
    (quantities : List QuantityRow) (o : ObsRow) (s : StationRow) (q : QuantityRow) :
    (o, s, q) ∈ mergeRows obs stations quantities ↔
      o ∈ obs ∧ s ∈ stations ∧ q ∈ quantities ∧
        s.air_quality_station = o.air_quality_station ∧
        q.air_pollutant_code = o.air_pollutant_code := by
  simp only [mergeRows, mergeQuantity, mergeStation, List.mem_flatMap,
    List.mem_map, List.mem_filter, decide_eq_true_eq]
  aesop

/-- Helper: every column name of the merged frame resolves on a merged
row. -/
theorem mergedColValue_isSome_of_mem (c : String) (hc : c ∈ mergedCols)
    (m : MergedRow) : (mergedColValue m c).isSome := by
  fin_cases hc <;> rfl

/-- Helper: on column names of the merged frame, the selection emits the
named values in the requested order. -/
theorem selectRow_eq_of_known (obsCols : List String) (m : MergedRow)
    (hC : ∀ c ∈ obsCols, c ∈ mergedCols) :
    selectRow obsCols m =
      some (obsCols.map fun c => (mergedColValue m c).getD (Val.s "")) := by
  induction obsCols with
  | nil => rfl
  | cons c cs ih =>
    have hc := hC c (List.mem_cons_self c cs)
    have hcs : ∀ x ∈ cs, x ∈ mergedCols := fun x hx => hC x (List.mem_cons_of_mem c hx)
    obtain ⟨v, hv⟩ := Option.isSome_iff_exists.mp (mergedColValue_isSome_of_mem c hc m)
    have ih' := ih hcs
    rw [selectRow] at ih' ⊢
    rw [List.mapM_cons, hv, ih']
    simp [hv]

/-- Helper: when every requested column exists in the merged frame, the
whole frame transformation succeeds and emits one output row per merged
row, each listing the requested columns in order. -/
theorem processRows_eq_of_known (obsCols : List String) (obs : List ObsRow)
    (stations : List StationRow) (quantities : List QuantityRow)
    (hC : ∀ c ∈ obsCols, c ∈ mergedCols) :
    processRows obsCols obs stations quantities =
      .ok ((mergeRows obs stations quantities).map fun m =>
        obsCols.map fun c => (mergedColValue m c).getD (Val.s "")) := by
  rw [processRows]
  have hmap : (mergeRows obs stations quantities).mapM (selectRow obsCols) =
      some ((mergeRows obs stations quantities).map fun m =>
        obsCols.map fun c => (mergedColValue m c).getD (Val.s "")) := by
    induction mergeRows obs stations quantities with
    | nil => rfl
    | cons m ms ih =>
      rw [List.mapM_cons, selectRow_eq_of_known obsCols m hC, ih]
      simp
  rw [hmap]

/-- Claim C5: the fact loader inner-joins each parsed file against the
station dimension on station code and the quantity dimension on pollutant
code — a row is in the joined output precisely when both codes have
dimension matches (unmatched rows are dropped, matched rows carry the
matching surrogate keys) — and the emitted output lists, for each merged
row, exactly the sink's fact-table columns in the sink's order. -/
theorem fact_join_and_column_order (obs : List ObsRow)
    (stations : List StationRow) (quantities : List QuantityRow)
    (obsCols : List String) (hC : ∀ c ∈ obsCols, c ∈ mergedCols)
    (o : ObsRow) (s : StationRow) (q : QuantityRow) :
    ((o, s, q) ∈ mergeRows obs stations quantities ↔
      o ∈ obs ∧ s ∈ stations ∧ q ∈ quantities ∧
        s.air_quality_station = o.air_quality_station ∧
        q.air_pollutant_code = o.air_pollutant_code) ∧
    processRows obsCols obs stations quantities =
      .ok ((mergeRows obs stations quantities).map fun m =>
        obsCols.map fun c => (mergedColValue m c).getD (Val.s "")) :=
  ⟨mem_mergeRows obs stations quantities o s q,
   processRows_eq_of_known obsCols obs stations quantities hC⟩

/-- Witness for C5 at a concrete input: a row whose codes resolve is
present in the join with the matching surrogate keys, and the emitted
output is that row's values in the sink's column order. -/
theorem fact_join_and_column_order_witness :
    ((exObsRow, (⟨1, "ST1"⟩ : StationRow), (⟨2, "P1", "u"⟩ : QuantityRow)) ∈
      mergeRows [exObsRow] exStations exQuantities ↔
        exObsRow ∈ [exObsRow] ∧ (⟨1, "ST1"⟩ : StationRow) ∈ exStations ∧
          (⟨2, "P1", "u"⟩ : QuantityRow) ∈ exQuantities ∧
          "ST1" = exObsRow.air_quality_station ∧
          "P1" = exObsRow.air_pollutant_code) ∧
    processRows exObsCols [exObsRow] exStations exQuantities =
      .ok ((mergeRows [exObsRow] exStations exQuantities).map fun m =>
        exObsCols.map fun c => (mergedColValue m c).getD (Val.s "")) :=
  fact_join_and_column_order [exObsRow] exStations exQuantities exObsCols
    (by decide) exObsRow ⟨1, "ST1"⟩ ⟨2, "P1", "u"⟩

/-- Claim C6: dimension loading is a full replace with a surrogate
primary key declared only after the bulk write.  Loading the station
(resp. quantity) file twice, with any two row lists, leaves the table
holding exactly the second load's normalized rows keyed by the generated
`station_id` (resp. `quantity_id`) index column, with that column the
primary key; right after the bulk write itself the table has no primary
key yet. -/
theorem dimension_full_replace (csv1 csv2 qcsv1 qcsv2 : List Row) (db : Db)
    (rows : List Row) (db' : Db) :
    ((load_metadata csv2 (load_metadata csv1 db)).getTable "station" =
      some ⟨indexedRows "station_id" (normalize_column_names csv2),
            some "station_id"⟩) ∧
    ((load_quantities qcsv2 (load_quantities qcsv1 db)).getTable "quantity" =
      some ⟨indexedRows "quantity_id" (normalize_column_names qcsv2),
            some "quantity_id"⟩) ∧
    ((to_sql_replace "station" "station_id" rows db').getTable "station" =
      some ⟨indexedRows "station_id" rows, none⟩) := by
  refine ⟨?_, ?_, ?_⟩ <;>
    simp [load_metadata, load_quantities, to_sql_replace, alterAddPrimaryKey,
      Db.getTable, Db.setTable, List.lookup]

/-! ### Claims C9 and C10 -/

/-- A file-list row whose path stem splits into exactly two parts. -/
def exGoodRow : FileListRow := ⟨"http://x/f.csv", "data/file_lists/NO2_AT.csv.xz"⟩

/-- A file-list row whose path stem splits into three parts (a pollutant
notation containing an underscore). -/
def exBadRow : FileListRow := ⟨"http://x/g.csv", "data/file_lists/PM2_5_NO.csv.xz"⟩

/-- Claim C9 (counterexample): a non-HTTP exception while processing one
catalog entry is logged by the generic handler with the URL only — the
emitted log line is a `processError`, which carries no target cache path,
so not every per-entry failure is logged with both URL and target path. -/
theorem download_log_lacks_path :
    (downloadLoop "data" (fun _ => (.error (.otherErr "boom") : Except DlErr Nat))
        [exGoodRow] ⟨[]⟩).2 = [.processError "http://x/f.csv" "boom"] ∧
    ∀ path url msg,
      DlLog.processError "http://x/f.csv" "boom" ≠ DlLog.downloadError path url msg := by
  exact ⟨rfl, fun _ _ _ h => DlLog.noConfusion h⟩

/-- Claim C9 (amended): every exception raised while processing one
catalog entry is caught at that entry's boundary and the loop continues
with the remaining entries; an HTTP error is logged with the entry's
target cache path and URL, while any other exception is logged with the
entry's URL only. -/
theorem download_entry_error_handling {α : Type} (root : String)
    (fetch : String → Except DlErr α) (r : FileListRow) (rs : List FileListRow)
    (fs : FS α) (m : String) :
    (downloadLoop root fetch (r :: rs) fs =
      ((downloadLoop root fetch rs (processEntry root fetch fs r).1).1,
       (processEntry root fetch fs r).2 ++
         (downloadLoop root fetch rs (processEntry root fetch fs r).1).2)) ∧
    ((splitStem r.path).length = 2 → fs.lookup (entryPath root r) = none →
      fetch r.url = .error (.httpError m) →
      processEntry root fetch fs r =
        (fs, [.downloadError (entryPath root r) r.url m])) ∧
    ((splitStem r.path).length = 2 → fs.lookup (entryPath root r) = none →
      fetch r.url = .error (.otherErr m) →
      processEntry root fetch fs r = (fs, [.processError r.url m])) := by
  refine ⟨rfl, ?_, ?_⟩ <;> intro h1 h2 h3 <;>
    simp [processEntry, maybe_download, h1, h2, h3]

/-- Witness for C9 (amended) at concrete inputs: an HTTP failure is
logged with path and URL; a non-HTTP failure with the URL only. -/
theorem download_entry_error_handling_witness :
    (processEntry "data" (fun _ => (.error (.httpError "503") : Except DlErr Nat))
        ⟨[]⟩ exGoodRow =
      (⟨[]⟩, [.downloadError (entryPath "data" exGoodRow) exGoodRow.url "503"])) ∧
    (processEntry "data" (fun _ => (.error (.otherErr "boom") : Except DlErr Nat))
        ⟨[]⟩ exGoodRow =
      (⟨[]⟩, [.processError exGoodRow.url "boom"])) :=
  ⟨(download_entry_error_handling "data"
      (fun _ => (.error (.httpError "503") : Except DlErr Nat)) exGoodRow []
      ⟨[]⟩ "503").2.1 (by decide) rfl rfl,
   (download_entry_error_handling "data"
      (fun _ => (.error (.otherErr "boom") : Except DlErr Nat)) exGoodRow []
      ⟨[]⟩ "boom").2.2 (by decide) rfl rfl⟩

/-- Claim C10: when a file-list path's stem does not split into exactly
two underscore-separated parts, the tuple unpacking raises, the generic
per-entry handler catches it, the entry is skipped without any download
(the file cache is unchanged), and the pass continues with the remaining
entries. -/
theorem unpack_failure_skips_entry {α : Type} (root : String)
    (fetch : String → Except DlErr α) (r : FileListRow) (rs : List FileListRow)
    (fs : FS α) (h : (splitStem r.path).length ≠ 2) :
    processEntry root fetch fs r = (fs, [.processError r.url unpackErrMsg]) ∧
    downloadLoop root fetch (r :: rs) fs =
      ((downloadLoop root fetch rs fs).1,
       .processError r.url unpackErrMsg :: (downloadLoop root fetch rs fs).2) := by
  have hp : processEntry root fetch fs r = (fs, [.processError r.url unpackErrMsg]) := by
    simp [processEntry, h]
  exact ⟨hp, by simp [downloadLoop, hp]⟩

/-- Witness for C10 at a concrete input: a file-list path with an extra
underscore in the stem is skipped — nothing is downloaded, the generic
handler logs it, and the loop moves on. -/
theorem unpack_failure_skips_entry_witness :
    processEntry "data" (fun _ => (.ok 0 : Except DlErr Nat)) ⟨[]⟩ exBadRow =
      (⟨[]⟩, [.processError "http://x/g.csv" unpackErrMsg]) ∧
    downloadLoop "data" (fun _ => (.ok 0 : Except DlErr Nat)) [exBadRow] ⟨[]⟩ =
      ((downloadLoop "data" (fun _ => (.ok 0 : Except DlErr Nat)) [] ⟨[]⟩).1,
       .processError "http://x/g.csv" unpackErrMsg ::
         (downloadLoop "data" (fun _ => (.ok 0 : Except DlErr Nat)) [] ⟨[]⟩).2) :=
  unpack_failure_skips_entry "data" (fun _ => (.ok 0 : Except DlErr Nat))
    exBadRow [] ⟨[]⟩ (by decide)

end AirQuality
